import Mathlib

/-!
# Crowd-monitor GPIO driver (`gpio_drv.c`): embedding and verified properties

The driver keeps one `struct crowd_device` per endpoint.  The embedding below
follows `gpio_drv.c` function by function.

* C `int` fields are `Int`; the one arithmetic update of an `int`
  (`current_occupancy += change`) is reduced to the 32-bit two's-complement
  range by `wrap_int`, which is what a kernel build (`-fno-strict-overflow`)
  computes.
* `unsigned long total_messages` is a `Nat`, incremented modulo
  `2 ^ bits_per_long`; the word size is a parameter of the decoder.
* Calls into the kernel that act on the line or on the interrupt controller
  are recorded, in program order, as a list of `KernelCall`.
* `mutex_lock`/`mutex_unlock` bracket sequential sections and are not
  represented; `pr_info` logging is not represented.
-/

namespace CrowdGpio

/-! ## Constants -/

/-- Value of `EINVAL`. -/
def EINVAL : Int := 22
/-- Value of `EFAULT`. -/
def EFAULT : Int := 14
/-- Value of `ENODEV`. -/
def ENODEV : Int := 19
/-- Value of `ENOTTY`. -/
def ENOTTY : Int := 25
/-- Value of `ERESTARTSYS`. -/
def ERESTARTSYS : Int := 512

/-- Source: `#define MODE_TRANSMITTER 1`. -/
def MODE_TRANSMITTER : Int := 1
/-- Source: `#define MODE_RECEIVER 2`. -/
def MODE_RECEIVER : Int := 2

/-- Kernel request-number encoding `_IOC(dir, type, nr, size)` of the generic
ioctl layout: `dir << 30 | size << 16 | type << 8 | nr`. -/
def ioc (dir type nr size : Nat) : Nat :=
  dir * 2 ^ 30 + size * 2 ^ 16 + type * 2 ^ 8 + nr

/-- Source: `#define GPIO_IOCTL_MAGIC 'C'`. -/
def GPIO_IOCTL_MAGIC : Nat := 67
/-- Source: `_IOW(GPIO_IOCTL_MAGIC, 1, int)`. -/
def GPIO_IOCTL_SET_MODE : Nat := ioc 1 GPIO_IOCTL_MAGIC 1 4
/-- Source: `_IOR(GPIO_IOCTL_MAGIC, 2, int)`. -/
def GPIO_IOCTL_GET_COUNT : Nat := ioc 2 GPIO_IOCTL_MAGIC 2 4
/-- Source: `_IO(GPIO_IOCTL_MAGIC, 3)`. -/
def GPIO_IOCTL_RESET_COUNT : Nat := ioc 0 GPIO_IOCTL_MAGIC 3 0
/-- Source: `_IOW(GPIO_IOCTL_MAGIC, 4, int)`. -/
def GPIO_IOCTL_SET_THRESHOLD : Nat := ioc 1 GPIO_IOCTL_MAGIC 4 4

/-- Smallest value of a C `int`. -/
def INT_MIN : Int := -2147483648
/-- Largest value of a C `int`. -/
def INT_MAX : Int := 2147483647

/-- Reduction of a mathematical integer to the 32-bit two's-complement `int`
that holds it after a wrapping addition. -/
def wrap_int (x : Int) : Int := (x + 2147483648) % 4294967296 - 2147483648

/-! ## Data model -/

/-- The fields of `struct crowd_device` that carry state.  `gpio_desc` is
`none` for a NULL descriptor and `some pin` otherwise. -/
structure crowd_device where
  gpio_desc : Option Nat
  device_mode : Int
  current_occupancy : Int
  threshold : Int
  ventilation_active : Bool
  irq_num : Int
  irq_enabled : Bool
  total_messages : Nat
  deriving DecidableEq, Repr

/-- Calls the driver makes on the line, the timer and the interrupt
controller, in the order it makes them. -/
inductive KernelCall where
  | gpiod_set_value (value : Int)
  | msleep (ms : Nat)
  | gpiod_direction_output (value : Int)
  | gpiod_direction_input
  | request_irq (irq : Int)
  | free_irq (irq : Int)
  | cancel_work_sync
  | wake_up_interruptible
  deriving DecidableEq, Repr

/-- What a `write` or `ioctl` handler leaves behind: its return value, the
device behind `filp->private_data`, the kernel calls it made, and the `int`
it copied out to user memory, if any. -/
structure Outcome where
  ret : Int
  dev : Option crowd_device
  calls : List KernelCall
  out : Option Int
  deriving DecidableEq, Repr

/-- The instance as `create_crowd_device` initialises it, for a line `gpio_pin`
whose descriptor was found and whose `gpiod_to_irq` returned `irq`. -/
def create_crowd_device (gpio_pin : Nat) (irq : Int) : crowd_device :=
  { gpio_desc := some gpio_pin
    device_mode := MODE_RECEIVER
    current_occupancy := 0
    threshold := 50
    ventilation_active := false
    total_messages := 0
    irq_enabled := false
    irq_num := if irq < 0 then 0 else irq }

/-! ## Helper functions of the driver -/

/-- Source: `update_occupancy(dev, change)`. -/
def update_occupancy (dev : crowd_device) (change : Int) : crowd_device :=
  let occ := wrap_int (dev.current_occupancy + change)
  let occ := if occ < 0 then 0 else occ
  let should_ventilate : Bool := decide (occ ≥ dev.threshold)
  if should_ventilate != dev.ventilation_active then
    { dev with current_occupancy := occ, ventilation_active := should_ventilate }
  else
    { dev with current_occupancy := occ }

/-- Source: `send_signal(dev, signal_type)`; the instance is only read. -/
def send_signal (dev : crowd_device) (signal_type : Int) : Int × List KernelCall :=
  if dev.gpio_desc.isNone || dev.device_mode != MODE_TRANSMITTER then
    (-EINVAL, [])
  else if signal_type = 1 then
    (0, [.gpiod_set_value 1, .msleep 100, .gpiod_set_value 0, .msleep 100])
  else if signal_type = 2 then
    (0, [.gpiod_set_value 1, .msleep 100, .gpiod_set_value 0, .msleep 100,
         .gpiod_set_value 1, .msleep 100, .gpiod_set_value 0, .msleep 100])
  else if signal_type = 3 then
    (0, [.gpiod_set_value 1, .msleep 300, .gpiod_set_value 0, .msleep 100])
  else
    (-EINVAL, [])

/-- Source: `irq_work_handler(work)`.  `gpio_value` is what `gpiod_get_value`
returned (the level, or a negative errno); `bits_per_long` is the width of
`unsigned long` on the target. -/
def irq_work_handler (bits_per_long : Nat) (gpio_value : Int) (dev : crowd_device) :
    crowd_device × List KernelCall :=
  if gpio_value = 1 then
    let dev := { dev with total_messages := (dev.total_messages + 1) % 2 ^ bits_per_long }
    (update_occupancy dev 1, [.wake_up_interruptible])
  else
    (dev, [])

/-! ## file_operations -/

/-- The bytes of the string literal `"ENTER"`. -/
def str_ENTER : List Nat := [69, 78, 84, 69, 82]
/-- The bytes of the string literal `"EXIT"`. -/
def str_EXIT : List Nat := [69, 88, 73, 84]
/-- The bytes of the string literal `"STATUS"`. -/
def str_STATUS : List Nat := [83, 84, 65, 84, 85, 83]

/-- The C string held in a zero-terminated buffer: the bytes before the first
NUL. -/
def c_str (kbuf : List Nat) : List Nat := kbuf.takeWhile (fun b => b != 0)

/-- Whether `strcmp(kbuf, lit) == 0` for a literal without NUL bytes. -/
def strcmp_eq (kbuf lit : List Nat) : Bool := c_str kbuf == lit

/-- Source: `crowd_fops_write(filp, buf, len, off)`.  `private_data` is
`filp->private_data`, `buf` holds the `len` bytes at the user address and
`readable` tells whether `copy_from_user` can read them. -/
def crowd_fops_write (private_data : Option crowd_device) (buf : List Nat)
    (readable : Bool) : Outcome :=
  let len := buf.length
  match private_data with
  | none => { ret := -ENODEV, dev := none, calls := [], out := none }
  | some dev =>
    if len ≥ 32 then
      { ret := -EINVAL, dev := some dev, calls := [], out := none }
    else if !readable then
      { ret := -EFAULT, dev := some dev, calls := [], out := none }
    else
      let kbuf := buf ++ List.replicate (32 - len) 0
      let kbuf := if len > 0 ∧ kbuf.getD (len - 1) 0 = 10 then kbuf.set (len - 1) 0 else kbuf
      if strcmp_eq kbuf str_ENTER then
        if dev.device_mode = MODE_TRANSMITTER then
          let r := send_signal dev 1
          { ret := if r.1 = 0 then len else r.1, dev := some dev, calls := r.2, out := none }
        else
          { ret := len, dev := some (update_occupancy dev 1), calls := [], out := none }
      else if strcmp_eq kbuf str_EXIT then
        if dev.device_mode = MODE_TRANSMITTER then
          let r := send_signal dev 2
          { ret := if r.1 = 0 then len else r.1, dev := some dev, calls := r.2, out := none }
        else
          { ret := len, dev := some (update_occupancy dev (-1)), calls := [], out := none }
      else if strcmp_eq kbuf str_STATUS then
        if dev.device_mode = MODE_TRANSMITTER then
          let r := send_signal dev 3
          { ret := if r.1 = 0 then len else r.1, dev := some dev, calls := r.2, out := none }
        else
          { ret := len, dev := some dev, calls := [], out := none }
      else
        { ret := -EINVAL, dev := some dev, calls := [], out := none }

/-- Source: `crowd_fops_ioctl(filp, cmd, arg)`.  `arg` is the `int` stored at
the user address (`none` when `copy_from_user` faults), `arg_writable` tells
whether `copy_to_user` to that address succeeds, and `request_irq_ret` is what
`request_irq` returns if the handler calls it. -/
def crowd_fops_ioctl (private_data : Option crowd_device) (cmd : Nat)
    (arg : Option Int) (arg_writable : Bool) (request_irq_ret : Int) : Outcome :=
  match private_data with
  | none => { ret := -ENODEV, dev := none, calls := [], out := none }
  | some dev =>
    if cmd = GPIO_IOCTL_SET_MODE then
      match arg with
      | none => { ret := -EFAULT, dev := some dev, calls := [], out := none }
      | some value =>
        if value ≠ MODE_TRANSMITTER ∧ value ≠ MODE_RECEIVER then
          { ret := -EINVAL, dev := some dev, calls := [], out := none }
        else
          let dev := { dev with device_mode := value }
          if value = MODE_TRANSMITTER then
            { ret := 0, dev := some dev, calls := [.gpiod_direction_output 0], out := none }
          else if !dev.irq_enabled && decide (dev.irq_num > 0) then
            let ret := request_irq_ret
            if ret = 0 then
              { ret := ret, dev := some { dev with irq_enabled := true },
                calls := [.gpiod_direction_input, .request_irq dev.irq_num], out := none }
            else
              { ret := ret, dev := some dev,
                calls := [.gpiod_direction_input, .request_irq dev.irq_num], out := none }
          else
            { ret := 0, dev := some dev, calls := [.gpiod_direction_input], out := none }
    else if cmd = GPIO_IOCTL_GET_COUNT then
      let value := dev.current_occupancy
      if !arg_writable then
        { ret := -EFAULT, dev := some dev, calls := [], out := none }
      else
        { ret := 0, dev := some dev, calls := [], out := some value }
    else if cmd = GPIO_IOCTL_RESET_COUNT then
      { ret := 0
        dev := some { dev with current_occupancy := 0, ventilation_active := false }
        calls := [], out := none }
    else if cmd = GPIO_IOCTL_SET_THRESHOLD then
      match arg with
      | none => { ret := -EFAULT, dev := some dev, calls := [], out := none }
      | some value =>
        if value < 1 ∨ value > 1000 then
          { ret := -EINVAL, dev := some dev, calls := [], out := none }
        else
          { ret := 0, dev := some { dev with threshold := value }, calls := [], out := none }
    else
      { ret := -ENOTTY, dev := some dev, calls := [], out := none }

/-- Source: `threshold_store(dev, attr, buf, count)`.  `slot` is
`devices[minor]` (`none` for an empty slot or a minor beyond the table) and
`parsed` is the `int` that `kstrtoint(buf, 10, &value)` produced (`none` when
it returned a negative value). -/
def threshold_store (slot : Option crowd_device) (parsed : Option Int) (count : Nat) :
    Int × Option crowd_device :=
  match slot with
  | none => (-ENODEV, none)
  | some dev =>
    match parsed with
    | none => (-EINVAL, some dev)
    | some value =>
      if value < 1 ∨ value > 1000 then (-EINVAL, some dev)
      else (count, some { dev with threshold := value })

/-- How `wait_event_interruptible(wq, condition)` leaves the caller. -/
inductive WaitResult where
  | ready
  | interrupted
  | sleeping
  deriving DecidableEq, Repr

/-- Kernel `wait_event_interruptible`: it returns 0 at once when the condition
holds, a non-zero value when a signal is pending, and otherwise puts the caller
to sleep on the queue until a wake-up re-evaluates the condition. -/
def wait_event_interruptible (condition signal_pending : Bool) : WaitResult :=
  if condition then .ready
  else if signal_pending then .interrupted
  else .sleeping

/-- What one entry into `crowd_fops_read` does: the caller is put to sleep on
`read_wait`, or the call returns `ret` with `data` copied to the user buffer. -/
inductive ReadResult where
  | suspended
  | returned (ret : Int) (data : Option String)
  deriving DecidableEq, Repr

/-- The text `crowd_fops_read` formats for an instance that is not in receiver
mode. -/
def status_text (dev : crowd_device) : String :=
  "현재 인원: " ++ toString dev.current_occupancy ++ "명\n임계값: " ++
  toString dev.threshold ++ "명\n환기 상태: " ++
  (if dev.ventilation_active then "작동중" else "중지") ++ "\n총 메시지: " ++
  toString dev.total_messages ++ "개\n"

/-- Source: `crowd_fops_read(filp, buf, len, off)`.  `nonblock` is
`filp->f_flags & O_NONBLOCK`, `signal_pending` tells whether a signal is
pending for the caller, and `writable` whether `copy_to_user` succeeds. -/
def crowd_fops_read (private_data : Option crowd_device) (nonblock : Bool) (len : Nat)
    (signal_pending writable : Bool) : ReadResult :=
  match private_data with
  | none => .returned (-ENODEV) none
  | some dev =>
    let finish (response : String) : ReadResult :=
      let response_len := response.utf8ByteSize
      if len < response_len then .returned (-EINVAL) none
      else if !writable then .returned (-EFAULT) none
      else .returned response_len (some response)
    if dev.device_mode = MODE_RECEIVER then
      if nonblock then finish "ENTER\n"
      else
        match wait_event_interruptible (decide (dev.total_messages > 0)) signal_pending with
        | .interrupted => .returned (-ERESTARTSYS) none
        | .sleeping => .suspended
        | .ready => finish "ENTER\n"
    else
      finish (status_text dev)

/-- Source: `destroy_crowd_device(minor)`, as far as the interrupt and the work
item go: the interrupt is released only if it is recorded as enabled, then
pending work is cancelled and the slot is emptied. -/
def destroy_crowd_device (slot : Option crowd_device) : Option crowd_device × List KernelCall :=
  match slot with
  | none => (none, [])
  | some dev =>
    (none, (if dev.irq_enabled then [.free_irq dev.irq_num] else []) ++ [.cancel_work_sync])

/-! ## Sequences of operations -/

/-- The two counted events and the `change` that `crowd_fops_write` passes to
`update_occupancy` for each. -/
inductive Event where
  | Enter
  | Exit
  deriving DecidableEq, Repr

/-- Source: `update_occupancy(dev, 1)` for ENTER, `update_occupancy(dev, -1)`
for EXIT. -/
def Event.change : Event → Int
  | .Enter => 1
  | .Exit => -1

/-- The instance states seen while a list of events is applied through
`update_occupancy`: the starting state, then the state after each event. -/
def observed_states (dev : crowd_device) : List Event → List crowd_device
  | [] => [dev]
  | e :: es => dev :: observed_states (update_occupancy dev e.change) es

/-- The instance after `k` successive calls `update_occupancy(dev, 1)`. -/
def enter_times : Nat → crowd_device → crowd_device
  | 0, dev => dev
  | k + 1, dev => enter_times k (update_occupancy dev 1)

/-- An instance that has counted `INT_MAX` entries: receiver mode, threshold
50, ventilation on. -/
def full_device : crowd_device :=
  { gpio_desc := some 26
    device_mode := MODE_RECEIVER
    current_occupancy := INT_MAX
    threshold := 50
    ventilation_active := true
    irq_num := 5
    irq_enabled := false
    total_messages := 0 }

/-- A fresh receiver instance whose threshold was set to 2. -/
def threshold2_device : crowd_device :=
  { create_crowd_device 26 5 with threshold := 2 }

/-- The operations that write the occupancy fields of an instance, each with
the inputs its handler takes. -/
inductive Op where
  | apply_delta (change : Int)
  | reset
  | set_threshold (arg : Option Int)
  | store_threshold (parsed : Option Int) (count : Nat)
  | write_command (buf : List Nat) (readable : Bool)
  | decode (bits_per_long : Nat) (gpio_value : Int)
  deriving DecidableEq, Repr

/-- The instance after one operation, computed by the handler of the
operation. -/
def Op.apply (dev : crowd_device) : Op → crowd_device
  | .apply_delta change => update_occupancy dev change
  | .reset => ((crowd_fops_ioctl (some dev) GPIO_IOCTL_RESET_COUNT none false 0).dev).getD dev
  | .set_threshold arg =>
    ((crowd_fops_ioctl (some dev) GPIO_IOCTL_SET_THRESHOLD arg false 0).dev).getD dev
  | .store_threshold parsed count => ((threshold_store (some dev) parsed count).2).getD dev
  | .write_command buf readable => ((crowd_fops_write (some dev) buf readable).dev).getD dev
  | .decode bits_per_long gpio_value => (irq_work_handler bits_per_long gpio_value dev).1

/-- The instance after a list of operations, applied from left to right. -/
def run_ops (dev : crowd_device) : List Op → crowd_device
  | [] => dev
  | op :: ops => run_ops (op.apply dev) ops

/-- The ventilation flag agrees with the comparison it is derived from. -/
def ventilation_consistent (dev : crowd_device) : Prop :=
  dev.ventilation_active = decide (dev.current_occupancy ≥ dev.threshold)

instance (dev : crowd_device) : Decidable (ventilation_consistent dev) := by
  unfold ventilation_consistent; infer_instance

/-- Whether an operation is one of the two that store a threshold. -/
def Op.stores_threshold : Op → Bool
  | .set_threshold _ => true
  | .store_threshold _ _ => true
  | _ => false

/-- A text with one trailing newline byte removed, if it ends in one. -/
def strip_newline (buf : List Nat) : List Nat :=
  if buf.getLast? = some 10 then buf.dropLast else buf

/-- The command a written text carries: one trailing newline is removed, and
what stands before the first NUL byte is kept. -/
def command_text (buf : List Nat) : List Nat := c_str (strip_newline buf)

/-- The texts the driver accepts: fewer than 32 bytes whose command is ENTER,
EXIT or STATUS. -/
def valid_command (buf : List Nat) : Prop :=
  buf.length < 32 ∧
    (command_text buf = str_ENTER ∨ command_text buf = str_EXIT ∨ command_text buf = str_STATUS)

instance (buf : List Nat) : Decidable (valid_command buf) := by
  unfold valid_command; infer_instance

/-- The texts named by the specification: exactly ENTER, EXIT or STATUS,
optionally followed by a single newline. -/
def exact_command (buf : List Nat) : Prop :=
  buf = str_ENTER ∨ buf = str_EXIT ∨ buf = str_STATUS ∨
    buf = str_ENTER ++ [10] ∨ buf = str_EXIT ++ [10] ∨ buf = str_STATUS ++ [10]

instance (buf : List Nat) : Decidable (exact_command buf) := by
  unfold exact_command; infer_instance

/-- The text `"ENTER"`, a NUL byte, then `"X"`. -/
def enter_nul_x : List Nat := str_ENTER ++ [0, 88]

/-- The text `"enter"` in lower case. -/
def str_enter_lower : List Nat := [101, 110, 116, 101, 114]

/-- An instance bound to line 17 whose interrupt was armed by an earlier
receiver configuration. -/
def armed_device : crowd_device :=
  { create_crowd_device 17 5 with irq_enabled := true }

/-- The kernel calls that drive a list of (level, duration in ms) steps onto
the line: each step sets the level and then sleeps for the duration. -/
def drive : List (Int × Nat) → List KernelCall
  | [] => []
  | (level, ms) :: steps => .gpiod_set_value level :: .msleep ms :: drive steps

/-- Total time slept in a list of kernel calls, in ms. -/
def total_duration : List KernelCall → Nat
  | [] => 0
  | .msleep ms :: calls => ms + total_duration calls
  | _ :: calls => total_duration calls

/-- The level the line is left at by a list of kernel calls, starting from
`level`. -/
def final_level (level : Int) : List KernelCall → Int
  | [] => level
  | .gpiod_set_value v :: calls => final_level v calls
  | .gpiod_direction_output v :: calls => final_level v calls
  | _ :: calls => final_level level calls

/-- A fresh receiver instance after the deferred decoder has handled one
rising edge (64-bit `unsigned long`). -/
def decoded_once : crowd_device := (irq_work_handler 64 1 (create_crowd_device 26 5)).1

/-- A transmitter instance bound to line 17. -/
def transmitter_device : crowd_device :=
  { create_crowd_device 17 5 with device_mode := MODE_TRANSMITTER }

/-- A fresh receiver instance whose message counter holds the largest value of
a 64-bit `unsigned long`. -/
def saturated_device : crowd_device :=
  { create_crowd_device 26 5 with total_messages := 2 ^ 64 - 1 }

/-- A fresh receiver instance that has counted three messages. -/
def counted_device : crowd_device :=
  { create_crowd_device 26 5 with total_messages := 3 }

/-- One `GPIO_IOCTL_SET_MODE` request: the `int` at the user address (`none`
when it cannot be read) and what `request_irq` returns if the handler calls
it. -/
structure ModeRequest where
  arg : Option Int
  request_irq_ret : Int
  deriving DecidableEq, Repr

/-- An instance together with the number of handlers the kernel holds
registered for its interrupt line on its behalf. -/
structure IrqState where
  dev : crowd_device
  registered : Nat
  deriving DecidableEq, Repr

/-- Whether a kernel call is a `request_irq`. -/
def is_request_irq : KernelCall → Bool
  | .request_irq _ => true
  | _ => false

/-- One `GPIO_IOCTL_SET_MODE` request handled by `crowd_fops_ioctl`: the
instance becomes what the handler leaves, and every `request_irq` call that
returned 0 adds one registration. -/
def set_mode_step (s : IrqState) (q : ModeRequest) : IrqState :=
  { dev := ((crowd_fops_ioctl (some s.dev) GPIO_IOCTL_SET_MODE q.arg false
      q.request_irq_ret).dev).getD s.dev
    registered := s.registered +
      (if q.request_irq_ret = 0 then
        (crowd_fops_ioctl (some s.dev) GPIO_IOCTL_SET_MODE q.arg false
          q.request_irq_ret).calls.countP is_request_irq
      else 0) }

/-- The states seen while a list of mode requests is handled: the starting
state, then the state after each request. -/
def set_mode_states (s : IrqState) : List ModeRequest → List IrqState
  | [] => [s]
  | q :: qs => s :: set_mode_states (set_mode_step s q) qs

/-- The number of registrations agrees with the `irq_enabled` flag. -/
def irq_coherent (s : IrqState) : Prop :=
  s.registered = if s.dev.irq_enabled then 1 else 0

instance (s : IrqState) : Decidable (irq_coherent s) := by
  unfold irq_coherent; infer_instance

/-! ## Properties of `update_occupancy` -/

/-- The occupancy `update_occupancy` stores: the wrapped sum, clamped at 0. -/
def clamped_sum (dev : crowd_device) (change : Int) : Int :=
  if wrap_int (dev.current_occupancy + change) < 0 then 0
  else wrap_int (dev.current_occupancy + change)

theorem update_occupancy_eq (dev : crowd_device) (change : Int) :
    update_occupancy dev change =
      { dev with
        current_occupancy := clamped_sum dev change
        ventilation_active := decide (clamped_sum dev change ≥ dev.threshold) } := by
  unfold update_occupancy clamped_sum
  cases hv : dev.ventilation_active <;>
    by_cases hc : (if wrap_int (dev.current_occupancy + change) < 0 then 0
        else wrap_int (dev.current_occupancy + change)) ≥ dev.threshold <;>
    simp [hv, hc]

theorem clamped_sum_nonneg (dev : crowd_device) (change : Int) :
    0 ≤ clamped_sum dev change := by
  unfold clamped_sum
  split <;> omega

theorem wrap_int_of_range (x : Int) (hlo : INT_MIN ≤ x) (hhi : x ≤ INT_MAX) :
    wrap_int x = x := by
  unfold wrap_int
  unfold INT_MIN at hlo
  unfold INT_MAX at hhi
  omega

theorem clamped_sum_of_range (dev : crowd_device) (change : Int)
    (hlo : INT_MIN ≤ dev.current_occupancy + change)
    (hhi : dev.current_occupancy + change ≤ INT_MAX) :
    clamped_sum dev change = max 0 (dev.current_occupancy + change) := by
  unfold clamped_sum
  rw [wrap_int_of_range _ hlo hhi]
  split <;> omega

theorem update_occupancy_occ_nonneg (dev : crowd_device) (change : Int) :
    0 ≤ (update_occupancy dev change).current_occupancy := by
  rw [update_occupancy_eq]
  exact clamped_sum_nonneg dev change

theorem update_occupancy_vent (dev : crowd_device) (change : Int) :
    (update_occupancy dev change).ventilation_active =
      decide ((update_occupancy dev change).current_occupancy ≥
        (update_occupancy dev change).threshold) := by
  rw [update_occupancy_eq]

theorem enter_times_eq (k : Nat) :
    ∀ dev : crowd_device, 0 ≤ dev.current_occupancy →
      dev.current_occupancy + k ≤ INT_MAX →
      dev.ventilation_active = decide (dev.current_occupancy ≥ dev.threshold) →
      enter_times k dev =
        { dev with
          current_occupancy := dev.current_occupancy + k
          ventilation_active := decide (dev.current_occupancy + k ≥ dev.threshold) } := by
  induction k with
  | zero =>
    intro dev _ _ hv
    cases dev
    simp_all [enter_times]
  | succ k ih =>
    intro dev h0 hk hv
    have hk1 : dev.current_occupancy + 1 ≤ INT_MAX := by push_cast at hk; omega
    have hlo : INT_MIN ≤ dev.current_occupancy + 1 := by unfold INT_MIN; omega
    have hc : clamped_sum dev 1 = dev.current_occupancy + 1 := by
      rw [clamped_sum_of_range dev 1 hlo hk1]; omega
    have hstep := update_occupancy_eq dev 1
    rw [hc] at hstep
    rw [enter_times, hstep, ih]
    · simp only
      have : dev.current_occupancy + 1 + (k : Int) = dev.current_occupancy + ((k + 1 : Nat) : Int) := by
        push_cast; ring
      rw [this]
    · simp only; omega
    · simp only; push_cast at hk; omega
    · simp only

/-- C2: starting from an instance whose occupancy is not negative, every state
seen while any sequence of Enter and Exit events is applied through
`update_occupancy` has a non-negative occupancy. -/
theorem occupancy_never_negative (dev : crowd_device) (events : List Event)
    (h0 : 0 ≤ dev.current_occupancy) :
    ∀ s ∈ observed_states dev events, 0 ≤ s.current_occupancy := by
  induction events generalizing dev with
  | nil =>
    intro s hs
    simp only [observed_states, List.mem_singleton] at hs
    rw [hs]; exact h0
  | cons e es ih =>
    intro s hs
    simp only [observed_states, List.mem_cons] at hs
    rcases hs with hs | hs
    · rw [hs]; exact h0
    · exact ih _ (update_occupancy_occ_nonneg dev e.change) s hs

/-- Witness for C2: from a fresh instance, Exit, Enter, Exit, Exit never shows
a negative occupancy. -/
theorem occupancy_never_negative_witness :
    0 ≤ (create_crowd_device 26 5).current_occupancy ∧
      ∀ s ∈ observed_states (create_crowd_device 26 5) [.Exit, .Enter, .Exit, .Exit],
        0 ≤ s.current_occupancy :=
  ⟨by decide, occupancy_never_negative (create_crowd_device 26 5) _ (by decide)⟩

/-- C3, as stated, fails where the sum leaves the range of `int`: with
occupancy `INT_MAX`, `update_occupancy(dev, 1)` stores 0, not
`max(0, INT_MAX + 1)`. -/
theorem update_occupancy_overflow :
    (update_occupancy full_device 1).current_occupancy = 0 ∧
      (update_occupancy full_device 1).current_occupancy ≠
        max 0 (full_device.current_occupancy + 1) := by
  decide

/-- C3 (amended): when `old occupancy + d` fits in an `int`,
`update_occupancy(dev, d)` stores `max(0, old occupancy + d)` as occupancy and
`new occupancy >= threshold` as `ventilation_active` and changes no other
field; and from occupancy 0, ventilation off and threshold at least 1, `k`
successive Enters (`k` at most `INT_MAX`) leave occupancy `k` and
`ventilation_active` equal to `k >= threshold`. -/
theorem update_occupancy_spec (dev : crowd_device) (d : Int) (k : Nat)
    (hlo : INT_MIN ≤ dev.current_occupancy + d)
    (hhi : dev.current_occupancy + d ≤ INT_MAX)
    (hk : (k : Int) ≤ INT_MAX) :
    update_occupancy dev d =
        { dev with
          current_occupancy := max 0 (dev.current_occupancy + d)
          ventilation_active := decide (max 0 (dev.current_occupancy + d) ≥ dev.threshold) } ∧
      (dev.current_occupancy = 0 → dev.ventilation_active = false → 1 ≤ dev.threshold →
        enter_times k dev =
          { dev with
            current_occupancy := k
            ventilation_active := decide ((k : Int) ≥ dev.threshold) }) := by
  constructor
  · rw [update_occupancy_eq, clamped_sum_of_range dev d hlo hhi]
  · intro h0 hv ht
    have h := enter_times_eq k dev (by omega) (by rw [h0]; omega)
      (by rw [hv, h0]; symm; simp only [decide_eq_false_iff_not]; omega)
    rw [h, h0]
    simp only [zero_add]

/-- Witness for C3 (amended): with threshold 2 and occupancy 0, one Enter
leaves occupancy 1 with ventilation off, and two Enters leave occupancy 2 with
ventilation on. -/
theorem update_occupancy_spec_witness :
    (update_occupancy threshold2_device 1).current_occupancy = 1 ∧
      (update_occupancy threshold2_device 1).ventilation_active = false ∧
      (enter_times 2 threshold2_device).current_occupancy = 2 ∧
      (enter_times 2 threshold2_device).ventilation_active = true := by
  have h := update_occupancy_spec threshold2_device 1 2 (by decide) (by decide) (by decide)
  have h2 := h.2 (by decide) (by decide) (by decide)
  refine ⟨?_, ?_, ?_, ?_⟩
  · rw [h.1]; decide
  · rw [h.1]; decide
  · rw [h2]; decide
  · rw [h2]; decide

/-! ## Ventilation flag across operations -/

theorem write_dev_cases (dev : crowd_device) (buf : List Nat) (readable : Bool) :
    (crowd_fops_write (some dev) buf readable).dev = some dev ∨
      (crowd_fops_write (some dev) buf readable).dev = some (update_occupancy dev 1) ∨
      (crowd_fops_write (some dev) buf readable).dev = some (update_occupancy dev (-1)) := by
  unfold crowd_fops_write
  simp only
  split_ifs <;> simp

theorem update_occupancy_threshold (dev : crowd_device) (change : Int) :
    (update_occupancy dev change).threshold = dev.threshold := by
  rw [update_occupancy_eq]

theorem update_occupancy_consistent (dev : crowd_device) (change : Int) :
    ventilation_consistent (update_occupancy dev change) :=
  update_occupancy_vent dev change

/-- Every operation other than the two that store a threshold keeps the
threshold and leaves the ventilation flag consistent, from any consistent
state whose threshold is at least 1. -/
theorem apply_consistent (dev : crowd_device) (op : Op) (hop : op.stores_threshold = false)
    (ht : 1 ≤ dev.threshold) (hc : ventilation_consistent dev) :
    (op.apply dev).threshold = dev.threshold ∧ ventilation_consistent (op.apply dev) := by
  cases op with
  | apply_delta change =>
    exact ⟨update_occupancy_threshold dev change, update_occupancy_consistent dev change⟩
  | reset =>
    have hne1 : GPIO_IOCTL_RESET_COUNT ≠ GPIO_IOCTL_SET_MODE := by decide
    have hne2 : GPIO_IOCTL_RESET_COUNT ≠ GPIO_IOCTL_GET_COUNT := by decide
    simp only [Op.apply, crowd_fops_ioctl, hne1, hne2, if_false, if_true, Option.getD_some,
      ventilation_consistent, true_and]
    symm
    simp only [decide_eq_false_iff_not]
    omega
  | set_threshold arg => simp [Op.stores_threshold] at hop
  | store_threshold parsed count => simp [Op.stores_threshold] at hop
  | write_command buf readable =>
    simp only [Op.apply]
    rcases write_dev_cases dev buf readable with h | h | h <;> rw [h] <;>
      rw [Option.getD_some]
    · exact ⟨rfl, hc⟩
    · exact ⟨update_occupancy_threshold dev 1, update_occupancy_consistent dev 1⟩
    · exact ⟨update_occupancy_threshold dev (-1), update_occupancy_consistent dev (-1)⟩
  | decode bits_per_long gpio_value =>
    simp only [Op.apply, irq_work_handler]
    split_ifs
    · exact ⟨update_occupancy_threshold _ 1, update_occupancy_consistent _ 1⟩
    · exact ⟨rfl, hc⟩

/-- From a fresh instance, any sequence of operations that stores no threshold
ends in a state whose ventilation flag is consistent. -/
theorem run_ops_consistent (ops : List Op) (hops : ∀ op ∈ ops, op.stores_threshold = false) :
    ∀ dev : crowd_device, 1 ≤ dev.threshold → ventilation_consistent dev →
      ventilation_consistent (run_ops dev ops) := by
  induction ops with
  | nil => intro dev _ hc; exact hc
  | cons op ops ih =>
    intro dev ht hc
    have h := apply_consistent dev op (hops op (List.mem_cons_self _ _)) ht hc
    exact ih (fun o ho => hops o (List.mem_cons_of_mem _ ho)) _ (by rw [h.1]; exact ht) h.2

/-- C1: the code breaks the claim.  A fresh receiver instance that takes one
ENTER write and then `GPIO_IOCTL_SET_THRESHOLD` with value 1 ends with
occupancy 1, threshold 1 and `ventilation_active` still false, so the flag
differs from `occupancy >= threshold`. -/
theorem set_threshold_stale_ventilation :
    (run_ops (create_crowd_device 26 5)
        [.write_command str_ENTER true, .set_threshold (some 1)]).current_occupancy = 1 ∧
      (run_ops (create_crowd_device 26 5)
        [.write_command str_ENTER true, .set_threshold (some 1)]).threshold = 1 ∧
      (run_ops (create_crowd_device 26 5)
        [.write_command str_ENTER true, .set_threshold (some 1)]).ventilation_active = false ∧
      ¬ ventilation_consistent (run_ops (create_crowd_device 26 5)
        [.write_command str_ENTER true, .set_threshold (some 1)]) := by
  decide

/-! ## Threshold and reset requests -/

/-- C4: for every integer `value`, `GPIO_IOCTL_SET_THRESHOLD` and
`threshold_store` (on the parsed integer) return `-EINVAL` exactly when
`value < 1` or `value > 1000`; a rejected request leaves the whole instance as
it was, and an accepted one stores `value` as the threshold. -/
theorem set_threshold_validation (dev : crowd_device) (value : Int) (w : Bool) (r : Int)
    (count : Nat) :
    ((crowd_fops_ioctl (some dev) GPIO_IOCTL_SET_THRESHOLD (some value) w r).ret = -EINVAL ↔
        (value < 1 ∨ value > 1000)) ∧
      ((threshold_store (some dev) (some value) count).1 = -EINVAL ↔
        (value < 1 ∨ value > 1000)) ∧
      crowd_fops_ioctl (some dev) GPIO_IOCTL_SET_THRESHOLD (some value) w r =
        (if value < 1 ∨ value > 1000 then
          { ret := -EINVAL, dev := some dev, calls := [], out := none }
        else
          { ret := 0, dev := some { dev with threshold := value }, calls := [], out := none }) ∧
      threshold_store (some dev) (some value) count =
        (if value < 1 ∨ value > 1000 then (-EINVAL, some dev)
        else ((count : Int), some { dev with threshold := value })) := by
  have hne1 : GPIO_IOCTL_SET_THRESHOLD ≠ GPIO_IOCTL_SET_MODE := by decide
  have hne2 : GPIO_IOCTL_SET_THRESHOLD ≠ GPIO_IOCTL_GET_COUNT := by decide
  have hne3 : GPIO_IOCTL_SET_THRESHOLD ≠ GPIO_IOCTL_RESET_COUNT := by decide
  have hcount : (count : Int) ≠ -EINVAL := by unfold EINVAL; omega
  have h0 : (0 : Int) ≠ -EINVAL := by decide
  simp only [crowd_fops_ioctl, threshold_store, hne1, hne2, hne3, if_false, if_true]
  by_cases h : value < 1 ∨ value > 1000
  · simp [h]
  · simp only [h, if_false, iff_false, and_true, true_and]
    exact ⟨fun e => h0 e, fun e => hcount e⟩

/-- C5: `GPIO_IOCTL_RESET_COUNT` returns 0 and leaves the instance with
occupancy 0 and ventilation off; `total_messages`, threshold, mode, the
interrupt flag and every other field keep their values, and no kernel call is
made. -/
theorem reset_count_frame (dev : crowd_device) (arg : Option Int) (w : Bool) (r : Int) :
    crowd_fops_ioctl (some dev) GPIO_IOCTL_RESET_COUNT arg w r =
      { ret := 0
        dev := some
          { gpio_desc := dev.gpio_desc
            device_mode := dev.device_mode
            current_occupancy := 0
            threshold := dev.threshold
            ventilation_active := false
            irq_num := dev.irq_num
            irq_enabled := dev.irq_enabled
            total_messages := dev.total_messages }
        calls := []
        out := none } := by
  have hne1 : GPIO_IOCTL_RESET_COUNT ≠ GPIO_IOCTL_SET_MODE := by decide
  have hne2 : GPIO_IOCTL_RESET_COUNT ≠ GPIO_IOCTL_GET_COUNT := by decide
  simp only [crowd_fops_ioctl, hne1, hne2, if_false, if_true]

/-! ## Command texts -/

theorem c_str_append_nul (xs ys : List Nat) : c_str (xs ++ 0 :: ys) = c_str xs := by
  unfold c_str
  induction xs with
  | nil => simp
  | cons x xs ih =>
    by_cases hx : x = 0
    · simp [hx]
    · simp [List.takeWhile_cons, hx, ih]

theorem c_str_pad (xs : List Nat) (n : Nat) (hn : 0 < n) :
    c_str (xs ++ List.replicate n 0) = c_str xs := by
  obtain ⟨m, rfl⟩ : ∃ m, n = m + 1 := ⟨n - 1, by omega⟩
  rw [List.replicate_succ, c_str_append_nul]

theorem getD_at_length (xs ys : List Nat) (y d : Nat) :
    (xs ++ y :: ys).getD xs.length d = y := by
  induction xs with
  | nil => simp
  | cons x xs ih => simpa using ih

theorem set_at_length (xs ys : List Nat) (y z : Nat) :
    (xs ++ y :: ys).set xs.length z = xs ++ z :: ys := by
  induction xs with
  | nil => simp
  | cons x xs ih => simp

/-- The C string left in `kbuf` after the copy and the newline removal is the
command of the written text. -/
theorem kbuf_command (buf : List Nat) (hlen : buf.length < 32) :
    c_str (if buf.length > 0 ∧ (buf ++ List.replicate (32 - buf.length) 0).getD
          (buf.length - 1) 0 = 10
        then (buf ++ List.replicate (32 - buf.length) 0).set (buf.length - 1) 0
        else buf ++ List.replicate (32 - buf.length) 0) = command_text buf := by
  unfold command_text strip_newline
  rcases List.eq_nil_or_concat buf with hnil | ⟨init, last, hb⟩
  · subst hnil
    simp [c_str]
  · rw [List.concat_eq_append] at hb
    subst hb
    have hl : (init ++ [last]).length - 1 = init.length := by simp
    have happ : init ++ [last] ++ List.replicate (32 - (init ++ [last]).length) 0 =
        init ++ last :: List.replicate (32 - (init ++ [last]).length) 0 := by simp
    rw [hl, happ, getD_at_length, set_at_length]
    have hpos : (init ++ [last]).length > 0 := by simp
    by_cases h10 : last = 10
    · subst h10
      simp only [hpos, true_and, if_true, List.getLast?_concat, List.dropLast_concat]
      exact c_str_append_nul _ _
    · have hne : ¬ (some last = some 10) := by simpa using h10
      simp only [hpos, true_and, h10, if_false, List.getLast?_concat, hne]
      rw [← happ]
      exact c_str_pad _ _ (by omega)

theorem strcmp_kbuf (buf lit : List Nat) (hlen : buf.length < 32) :
    strcmp_eq (if buf.length > 0 ∧ (buf ++ List.replicate (32 - buf.length) 0).getD
          (buf.length - 1) 0 = 10
        then (buf ++ List.replicate (32 - buf.length) 0).set (buf.length - 1) 0
        else buf ++ List.replicate (32 - buf.length) 0) lit = (command_text buf == lit) := by
  unfold strcmp_eq
  rw [kbuf_command buf hlen]

theorem send_signal_ret (dev : crowd_device) (hline : dev.gpio_desc ≠ none)
    (hmode : dev.device_mode = MODE_TRANSMITTER) :
    (send_signal dev 1).1 = 0 ∧ (send_signal dev 2).1 = 0 ∧ (send_signal dev 3).1 = 0 := by
  have hb : dev.gpio_desc.isNone = false := by
    cases h : dev.gpio_desc with
    | none => exact absurd h hline
    | some _ => rfl
  simp [send_signal, hb, hmode]

/-- What `crowd_fops_write` does with a readable text shorter than 32 bytes, in
terms of the command the text carries. -/
theorem write_by_command (dev : crowd_device) (buf : List Nat) (hlen : buf.length < 32) :
    crowd_fops_write (some dev) buf true =
      (if command_text buf = str_ENTER then
        (if dev.device_mode = MODE_TRANSMITTER then
          { ret := if (send_signal dev 1).1 = 0 then (buf.length : Int) else (send_signal dev 1).1
            dev := some dev, calls := (send_signal dev 1).2, out := none }
        else
          { ret := buf.length, dev := some (update_occupancy dev 1), calls := [], out := none })
      else if command_text buf = str_EXIT then
        (if dev.device_mode = MODE_TRANSMITTER then
          { ret := if (send_signal dev 2).1 = 0 then (buf.length : Int) else (send_signal dev 2).1
            dev := some dev, calls := (send_signal dev 2).2, out := none }
        else
          { ret := buf.length, dev := some (update_occupancy dev (-1)), calls := [],
            out := none })
      else if command_text buf = str_STATUS then
        (if dev.device_mode = MODE_TRANSMITTER then
          { ret := if (send_signal dev 3).1 = 0 then (buf.length : Int) else (send_signal dev 3).1
            dev := some dev, calls := (send_signal dev 3).2, out := none }
        else
          { ret := buf.length, dev := some dev, calls := [], out := none })
      else
        { ret := -EINVAL, dev := some dev, calls := [], out := none }) := by
  have hge : ¬ buf.length ≥ 32 := by omega
  unfold crowd_fops_write
  simp only [hge, if_false, Bool.not_true, Bool.false_eq_true, strcmp_kbuf buf _ hlen,
    beq_iff_eq]

theorem exact_command_valid (buf : List Nat) (h : exact_command buf) : valid_command buf := by
  rcases h with h | h | h | h | h | h <;> subst h <;> decide

/-- The texts the specification lists as invalid carry no command. -/
theorem rejected_examples :
    ¬ valid_command str_enter_lower ∧ ¬ valid_command [] ∧
      ¬ valid_command (str_ENTER ++ [10, 10]) ∧ ¬ valid_command (32 :: str_ENTER) ∧
      ¬ valid_command (str_ENTER ++ [88]) ∧ ¬ valid_command (List.replicate 32 69) := by
  decide

/-- C6, as stated, fails: the seven bytes `ENTER`, NUL, `X` are none of the
exact command texts, yet the write is accepted (it returns 7) and counts an
entry on a fresh receiver instance. -/
theorem write_accepts_after_nul :
    ¬ exact_command enter_nul_x ∧
      (crowd_fops_write (some (create_crowd_device 26 5)) enter_nul_x true).ret = 7 ∧
      (crowd_fops_write (some (create_crowd_device 26 5)) enter_nul_x true).dev =
        some (update_occupancy (create_crowd_device 26 5) 1) := by
  decide

/-- C6 (amended): on an instance with a bound line, a readable written text is
accepted (the write returns its length) exactly when it is shorter than 32
bytes and, once a single trailing newline is removed, the bytes before the
first NUL byte are exactly ENTER, EXIT or STATUS; every other text returns
`-EINVAL`, leaves the instance unchanged and makes no kernel call. -/
theorem write_command_validation (dev : crowd_device) (buf : List Nat)
    (hline : dev.gpio_desc ≠ none) :
    ((crowd_fops_write (some dev) buf true).ret = buf.length ↔ valid_command buf) ∧
      (valid_command buf ∨
        crowd_fops_write (some dev) buf true =
          { ret := -EINVAL, dev := some dev, calls := [], out := none }) := by
  have hneg : ∀ n : Nat, (-EINVAL : Int) ≠ n := by intro n; unfold EINVAL; omega
  have e1 : str_EXIT ≠ str_ENTER := by decide
  have e2 : str_STATUS ≠ str_ENTER := by decide
  have e3 : str_STATUS ≠ str_EXIT := by decide
  by_cases hlen : buf.length < 32
  · rw [write_by_command dev buf hlen]
    unfold valid_command
    by_cases hm : dev.device_mode = MODE_TRANSMITTER
    · obtain ⟨h1, h2, h3⟩ := send_signal_ret dev hline hm
      by_cases c1 : command_text buf = str_ENTER
      · simp [hlen, hm, c1, h1]
      · by_cases c2 : command_text buf = str_EXIT
        · simp [hlen, hm, c2, h2, e1]
        · by_cases c3 : command_text buf = str_STATUS
          · simp [hlen, hm, c3, h3, e2, e3]
          · simp [hlen, c1, c2, c3, hneg]
    · by_cases c1 : command_text buf = str_ENTER
      · simp [hlen, hm, c1]
      · by_cases c2 : command_text buf = str_EXIT
        · simp [hlen, hm, c2, e1]
        · by_cases c3 : command_text buf = str_STATUS
          · simp [hlen, hm, c3, e2, e3]
          · simp [hlen, c1, c2, c3, hneg]
  · have hge : buf.length ≥ 32 := by omega
    have hw : crowd_fops_write (some dev) buf true =
        { ret := -EINVAL, dev := some dev, calls := [], out := none } := by
      unfold crowd_fops_write
      simp only [hge, if_true]
    rw [hw]
    unfold valid_command
    simp [hlen, hneg]

/-- Witness for C6 (amended): on a fresh instance the lower-case text `enter`
is not accepted: the write returns `-EINVAL` and the instance is unchanged. -/
theorem write_command_validation_witness :
    (create_crowd_device 26 5).gpio_desc ≠ none ∧
      ¬ valid_command str_enter_lower ∧
      crowd_fops_write (some (create_crowd_device 26 5)) str_enter_lower true =
        { ret := -EINVAL, dev := some (create_crowd_device 26 5), calls := [], out := none } :=
  ⟨by decide, by decide,
    ((write_command_validation (create_crowd_device 26 5) str_enter_lower (by decide)).2).resolve_left
      (by decide)⟩

/-! ## Writes to a receiver -/

/-- C7: on an instance in receiver mode, writing ENTER, EXIT or STATUS, with or
without one trailing newline, returns the number of bytes written and makes no
kernel call; ENTER leaves the instance as `update_occupancy(dev, 1)` does, EXIT
as `update_occupancy(dev, -1)` does (never below 0), and STATUS leaves every
field as it was. -/
theorem receiver_write (dev : crowd_device) (nl : List Nat)
    (hmode : dev.device_mode = MODE_RECEIVER) (hnl : nl = [] ∨ nl = [10]) :
    crowd_fops_write (some dev) (str_ENTER ++ nl) true =
        { ret := (str_ENTER ++ nl).length, dev := some (update_occupancy dev 1), calls := [],
          out := none } ∧
      crowd_fops_write (some dev) (str_EXIT ++ nl) true =
        { ret := (str_EXIT ++ nl).length, dev := some (update_occupancy dev (-1)), calls := [],
          out := none } ∧
      0 ≤ (update_occupancy dev (-1)).current_occupancy ∧
      crowd_fops_write (some dev) (str_STATUS ++ nl) true =
        { ret := (str_STATUS ++ nl).length, dev := some dev, calls := [], out := none } := by
  have hm : dev.device_mode ≠ MODE_TRANSMITTER := by rw [hmode]; decide
  refine ⟨?_, ?_, update_occupancy_occ_nonneg dev (-1), ?_⟩
  · have hlen : (str_ENTER ++ nl).length < 32 := by rcases hnl with h | h <;> subst h <;> decide
    have hc : command_text (str_ENTER ++ nl) = str_ENTER := by
      rcases hnl with h | h <;> subst h <;> decide
    rw [write_by_command dev _ hlen]
    simp only [hc, hm, if_true, if_false]
  · have hlen : (str_EXIT ++ nl).length < 32 := by rcases hnl with h | h <;> subst h <;> decide
    have hc : command_text (str_EXIT ++ nl) = str_EXIT := by
      rcases hnl with h | h <;> subst h <;> decide
    have hne : str_EXIT ≠ str_ENTER := by decide
    rw [write_by_command dev _ hlen]
    simp only [hc, hm, hne, if_true, if_false]
  · have hlen : (str_STATUS ++ nl).length < 32 := by
      rcases hnl with h | h <;> subst h <;> decide
    have hc : command_text (str_STATUS ++ nl) = str_STATUS := by
      rcases hnl with h | h <;> subst h <;> decide
    have hne1 : str_STATUS ≠ str_ENTER := by decide
    have hne2 : str_STATUS ≠ str_EXIT := by decide
    rw [write_by_command dev _ hlen]
    simp only [hc, hm, hne1, hne2, if_true, if_false]

/-- Witness for C7: on a fresh instance (receiver mode) the text `ENTER`
followed by a newline returns 6 and counts one entry. -/
theorem receiver_write_witness :
    (create_crowd_device 26 5).device_mode = MODE_RECEIVER ∧
      crowd_fops_write (some (create_crowd_device 26 5)) (str_ENTER ++ [10]) true =
        { ret := 6, dev := some (update_occupancy (create_crowd_device 26 5) 1), calls := [],
          out := none } :=
  ⟨by decide, (receiver_write (create_crowd_device 26 5) [10] (by decide) (Or.inr rfl)).1⟩

/-! ## Pulse patterns -/

/-- C8: on a transmitter instance with a bound line, `send_signal` returns 0
and makes exactly the calls that drive the pattern of the signal type:
type 1 (ENTER) high 100 ms, low 100 ms (200 ms); type 2 (EXIT) that pulse
twice (400 ms); type 3 (STATUS) high 300 ms, low 100 ms (400 ms).  Each pattern
leaves the line low, and a second transmitter instance, whatever its occupancy
fields, yields the same result for every signal type. -/
theorem send_signal_patterns (dev other : crowd_device) (level : Int)
    (hline : dev.gpio_desc ≠ none) (hmode : dev.device_mode = MODE_TRANSMITTER)
    (oline : other.gpio_desc ≠ none) (omode : other.device_mode = MODE_TRANSMITTER) :
    send_signal dev 1 = (0, drive [(1, 100), (0, 100)]) ∧
      send_signal dev 2 = (0, drive [(1, 100), (0, 100), (1, 100), (0, 100)]) ∧
      send_signal dev 3 = (0, drive [(1, 300), (0, 100)]) ∧
      total_duration (send_signal dev 1).2 = 200 ∧
      total_duration (send_signal dev 2).2 = 400 ∧
      total_duration (send_signal dev 3).2 = 400 ∧
      final_level level (send_signal dev 1).2 = 0 ∧
      final_level level (send_signal dev 2).2 = 0 ∧
      final_level level (send_signal dev 3).2 = 0 ∧
      (∀ signal_type : Int, send_signal other signal_type = send_signal dev signal_type) := by
  have hb : dev.gpio_desc.isNone = false := by
    cases h : dev.gpio_desc with
    | none => exact absurd h hline
    | some _ => rfl
  have ob : other.gpio_desc.isNone = false := by
    cases h : other.gpio_desc with
    | none => exact absurd h oline
    | some _ => rfl
  have h1 : send_signal dev 1 = (0, drive [(1, 100), (0, 100)]) := by
    simp [send_signal, hb, hmode, drive]
  have h2 : send_signal dev 2 = (0, drive [(1, 100), (0, 100), (1, 100), (0, 100)]) := by
    simp [send_signal, hb, hmode, drive]
  have h3 : send_signal dev 3 = (0, drive [(1, 300), (0, 100)]) := by
    simp [send_signal, hb, hmode, drive]
  refine ⟨h1, h2, h3, ?_, ?_, ?_, ?_, ?_, ?_, ?_⟩
  · rw [h1]; rfl
  · rw [h2]; rfl
  · rw [h3]; rfl
  · rw [h1]; rfl
  · rw [h2]; rfl
  · rw [h3]; rfl
  · intro signal_type
    simp only [send_signal, hb, ob, hmode, omode]

/-- Witness for C8: a transmitter on line 17 sends EXIT as two pulses of
100 ms high and 100 ms low. -/
theorem send_signal_patterns_witness :
    transmitter_device.gpio_desc ≠ none ∧
      transmitter_device.device_mode = MODE_TRANSMITTER ∧
      send_signal transmitter_device 2 =
        (0, [.gpiod_set_value 1, .msleep 100, .gpiod_set_value 0, .msleep 100,
             .gpiod_set_value 1, .msleep 100, .gpiod_set_value 0, .msleep 100]) :=
  ⟨by decide, by decide,
    (send_signal_patterns transmitter_device transmitter_device 1 (by decide) (by decide)
      (by decide) (by decide)).2.1⟩

/-! ## Mode switch to transmitter -/

/-- C9: the code breaks the claim.  An instance whose interrupt is armed is
still recorded as armed after a successful `GPIO_IOCTL_SET_MODE` with
`MODE_TRANSMITTER`, and the handler makes no `free_irq` call: the transmitter
branch omits the release that `destroy_crowd_device` performs under
`irq_enabled`. -/
theorem set_mode_transmitter_keeps_irq :
    armed_device.irq_enabled = true ∧
      (crowd_fops_ioctl (some armed_device) GPIO_IOCTL_SET_MODE (some MODE_TRANSMITTER)
        false 0).ret = 0 ∧
      (crowd_fops_ioctl (some armed_device) GPIO_IOCTL_SET_MODE (some MODE_TRANSMITTER)
        false 0).dev = some { armed_device with device_mode := MODE_TRANSMITTER } ∧
      KernelCall.free_irq armed_device.irq_num ∉
        (crowd_fops_ioctl (some armed_device) GPIO_IOCTL_SET_MODE (some MODE_TRANSMITTER)
          false 0).calls := by
  decide

/-- What the transmitter branch of `GPIO_IOCTL_SET_MODE` computes, for every
instance state: it returns 0, stores the mode and sets the line to output at
level 0; it makes no other kernel call and writes no other field, `irq_enabled`
included. -/
theorem set_mode_transmitter (dev : crowd_device) (w : Bool) (r : Int) :
    crowd_fops_ioctl (some dev) GPIO_IOCTL_SET_MODE (some MODE_TRANSMITTER) w r =
        { ret := 0
          dev := some
            { gpio_desc := dev.gpio_desc
              device_mode := MODE_TRANSMITTER
              current_occupancy := dev.current_occupancy
              threshold := dev.threshold
              ventilation_active := dev.ventilation_active
              irq_num := dev.irq_num
              irq_enabled := dev.irq_enabled
              total_messages := dev.total_messages }
          calls := [.gpiod_direction_output 0]
          out := none } := by
  have h : ¬ (MODE_TRANSMITTER ≠ MODE_TRANSMITTER ∧ MODE_TRANSMITTER ≠ MODE_RECEIVER) := by
    decide
  simp only [crowd_fops_ioctl, if_true, h, if_false]

/-! ## Blocking read -/

/-- A blocking read on a receiver never suspends the caller once
`total_messages` is positive. -/
theorem read_never_suspends (dev : crowd_device) (len : Nat) (signal_pending writable : Bool)
    (hmode : dev.device_mode = MODE_RECEIVER) (hseen : 0 < dev.total_messages) :
    crowd_fops_read (some dev) false len signal_pending writable ≠ .suspended := by
  simp only [crowd_fops_read, hmode, if_true, wait_event_interruptible, hseen, gt_iff_lt,
    decide_True, Bool.false_eq_true, if_false]
  split_ifs <;> simp

/-- C10: the code breaks the claim.  After one decoded event on a fresh
receiver (`total_messages` = 1) a blocking read with no signal pending returns
`ENTER` at once instead of suspending, and since the read changes no state
every later blocking read does the same without any further decode; before the
first event the same read suspends. -/
theorem blocking_read_returns_without_new_event :
    decoded_once.device_mode = MODE_RECEIVER ∧
      decoded_once.total_messages = 1 ∧
      crowd_fops_read (some decoded_once) false 256 false true =
        .returned 6 (some "ENTER\n") ∧
      crowd_fops_read (some decoded_once) false 256 false true ≠ .suspended ∧
      crowd_fops_read (some (create_crowd_device 26 5)) false 256 false true = .suspended := by
  decide

/-! ## Deferred decoder -/

theorem update_occupancy_total_messages (dev : crowd_device) (n : Nat) (change : Int) :
    update_occupancy { dev with total_messages := n } change =
      { update_occupancy dev change with total_messages := n } := by
  rw [update_occupancy_eq, update_occupancy_eq]
  rfl

/-- C11, as stated, fails where the counter is full: with `total_messages` at
the largest 64-bit value, a rising reading leaves it at 0, not one higher. -/
theorem irq_work_handler_counter_wraps :
    (irq_work_handler 64 1 saturated_device).1.total_messages = 0 ∧
      (irq_work_handler 64 1 saturated_device).1.total_messages ≠
        saturated_device.total_messages + 1 := by
  decide

/-- C11 (amended): for every instance state whose `total_messages` is below the
largest `unsigned long`, a reading of 1 makes `irq_work_handler` add exactly 1
to `total_messages`, apply `update_occupancy(dev, 1)` and wake the readers; for
every other reading `v` (0, a negative error value, anything but 1) the
instance is left as it was and no kernel call is made. -/
theorem irq_work_handler_spec (bits_per_long : Nat) (v : Int) (dev : crowd_device)
    (hroom : dev.total_messages + 1 < 2 ^ bits_per_long) (hv : v ≠ 1) :
    irq_work_handler bits_per_long 1 dev =
        ({ update_occupancy dev 1 with total_messages := dev.total_messages + 1 },
          [.wake_up_interruptible]) ∧
      irq_work_handler bits_per_long v dev = (dev, []) := by
  constructor
  · simp only [irq_work_handler, if_true, Nat.mod_eq_of_lt hroom]
    rw [update_occupancy_total_messages]
  · simp only [irq_work_handler, hv, if_false]

/-- Witness for C11 (amended): on a fresh receiver that has counted three
messages, a rising reading gives four messages and occupancy 1, and a failed
level read (-22) changes nothing. -/
theorem irq_work_handler_spec_witness :
    (irq_work_handler 64 1 counted_device).1.total_messages = 4 ∧
      (irq_work_handler 64 1 counted_device).1.current_occupancy = 1 ∧
      irq_work_handler 64 (-22) counted_device = (counted_device, []) := by
  have h := irq_work_handler_spec 64 (-22) counted_device (by decide) (by decide)
  refine ⟨?_, ?_, h.2⟩
  · rw [h.1]; decide
  · rw [h.1]; decide

/-! ## Mode requests -/

/-- C13: for every integer other than `MODE_TRANSMITTER` (1) and
`MODE_RECEIVER` (2), `GPIO_IOCTL_SET_MODE` returns `-EINVAL`, leaves every
field of the instance as it was and makes no kernel call (the line direction
is not touched); for 1 or 2 the stored mode afterwards is that value, whatever
`request_irq` returns. -/
theorem set_mode_validation (dev : crowd_device) (bad good : Int) (w : Bool) (r : Int)
    (hbad : bad ≠ MODE_TRANSMITTER ∧ bad ≠ MODE_RECEIVER)
    (hgood : good = MODE_TRANSMITTER ∨ good = MODE_RECEIVER) :
    crowd_fops_ioctl (some dev) GPIO_IOCTL_SET_MODE (some bad) w r =
        { ret := -EINVAL, dev := some dev, calls := [], out := none } ∧
      (crowd_fops_ioctl (some dev) GPIO_IOCTL_SET_MODE (some good) w r).dev.map
        (fun d => d.device_mode) = some good := by
  constructor
  · simp only [crowd_fops_ioctl, if_true, hbad, ne_eq, not_false_eq_true, and_self]
  · have hg : ¬ (good ≠ MODE_TRANSMITTER ∧ good ≠ MODE_RECEIVER) := by
      rcases hgood with h | h <;> rw [h] <;> decide
    simp only [crowd_fops_ioctl, if_true, hg, if_false]
    split_ifs <;> rfl

/-- Witness for C13: on a fresh instance the value 3 is rejected and the value
1 is stored. -/
theorem set_mode_validation_witness :
    crowd_fops_ioctl (some (create_crowd_device 26 5)) GPIO_IOCTL_SET_MODE (some 3) false 0 =
        { ret := -EINVAL, dev := some (create_crowd_device 26 5), calls := [], out := none } ∧
      (crowd_fops_ioctl (some (create_crowd_device 26 5)) GPIO_IOCTL_SET_MODE (some 1)
        false 0).dev.map (fun d => d.device_mode) = some 1 :=
  set_mode_validation (create_crowd_device 26 5) 3 1 false 0 (by decide) (by decide)

/-- C14: when `GPIO_IOCTL_SET_MODE` with `MODE_RECEIVER` reaches an instance
that is not armed and has an interrupt number, and `request_irq` fails (returns
a non-zero value), the handler returns that value, the stored mode is
`MODE_RECEIVER` and `irq_enabled` stays false; the line was set to input and
`request_irq` was called once. -/
theorem set_mode_receiver_registration_failure (dev : crowd_device) (w : Bool) (r : Int)
    (hoff : dev.irq_enabled = false) (hirq : dev.irq_num > 0) (hfail : r ≠ 0) :
    crowd_fops_ioctl (some dev) GPIO_IOCTL_SET_MODE (some MODE_RECEIVER) w r =
      { ret := r
        dev := some
          { gpio_desc := dev.gpio_desc
            device_mode := MODE_RECEIVER
            current_occupancy := dev.current_occupancy
            threshold := dev.threshold
            ventilation_active := dev.ventilation_active
            irq_num := dev.irq_num
            irq_enabled := false
            total_messages := dev.total_messages }
        calls := [.gpiod_direction_input, .request_irq dev.irq_num]
        out := none } := by
  have hm : ¬ (MODE_RECEIVER ≠ MODE_TRANSMITTER ∧ MODE_RECEIVER ≠ MODE_RECEIVER) := by decide
  have hne : MODE_RECEIVER ≠ MODE_TRANSMITTER := by decide
  simp only [crowd_fops_ioctl, if_true, hm, hne, if_false, hoff, Bool.not_false, hirq,
    decide_True, Bool.and_self, hfail]

/-- Witness for C14: on a fresh instance with interrupt number 5, a
`request_irq` that returns -16 makes the request return -16 with the mode
stored and the interrupt not enabled. -/
theorem set_mode_receiver_registration_failure_witness :
    (crowd_fops_ioctl (some (create_crowd_device 26 5)) GPIO_IOCTL_SET_MODE
        (some MODE_RECEIVER) false (-16)).ret = -16 ∧
      (crowd_fops_ioctl (some (create_crowd_device 26 5)) GPIO_IOCTL_SET_MODE
        (some MODE_RECEIVER) false (-16)).dev =
        some { create_crowd_device 26 5 with device_mode := MODE_RECEIVER, irq_enabled := false } := by
  have h := set_mode_receiver_registration_failure (create_crowd_device 26 5) false (-16)
    (by decide) (by decide) (by decide)
  rw [h]
  exact ⟨rfl, rfl⟩

/-! ## Interrupt registration -/

/-- The handler calls `request_irq` only for an instance that is not armed. -/
theorem request_irq_only_when_off (dev : crowd_device) (arg : Option Int) (w : Bool) (r : Int)
    (irq : Int)
    (h : KernelCall.request_irq irq ∈
      (crowd_fops_ioctl (some dev) GPIO_IOCTL_SET_MODE arg w r).calls) :
    dev.irq_enabled = false := by
  cases he : dev.irq_enabled with
  | false => rfl
  | true =>
    exfalso
    revert h
    simp only [crowd_fops_ioctl, if_true]
    cases arg with
    | none => simp
    | some value =>
      simp only [he, Bool.not_true, Bool.false_and, Bool.false_eq_true, if_false]
      split_ifs <;> simp

theorem set_mode_step_coherent (s : IrqState) (q : ModeRequest) (hs : irq_coherent s) :
    irq_coherent (set_mode_step s q) := by
  obtain ⟨dev, n⟩ := s
  obtain ⟨arg, r⟩ := q
  unfold irq_coherent at hs ⊢
  simp only at hs
  simp only [set_mode_step, crowd_fops_ioctl, if_true]
  cases arg with
  | none => simpa using hs
  | some value =>
    have hne : MODE_RECEIVER ≠ MODE_TRANSMITTER := by decide
    by_cases hbad : value ≠ MODE_TRANSMITTER ∧ value ≠ MODE_RECEIVER
    · simpa [hbad] using hs
    · by_cases ht : value = MODE_TRANSMITTER
      · subst ht
        simpa [is_request_irq, List.countP_cons, List.countP_nil] using hs
      · have hv : value = MODE_RECEIVER := by
          by_contra hv
          exact hbad ⟨ht, hv⟩
        subst hv
        cases he : dev.irq_enabled <;> simp only [he] at hs <;> subst hs <;>
          by_cases hr : r = 0 <;> by_cases hi : dev.irq_num > 0 <;>
          simp [he, hr, hne, hi, is_request_irq, List.countP_cons, List.countP_nil]

theorem set_mode_states_coherent (reqs : List ModeRequest) :
    ∀ s : IrqState, irq_coherent s → ∀ t ∈ set_mode_states s reqs, irq_coherent t := by
  induction reqs with
  | nil =>
    intro s hs t ht
    simp only [set_mode_states, List.mem_singleton] at ht
    rw [ht]; exact hs
  | cons q qs ih =>
    intro s hs t ht
    simp only [set_mode_states, List.mem_cons] at ht
    rcases ht with ht | ht
    · rw [ht]; exact hs
    · exact ih _ (set_mode_step_coherent s q hs) t ht

/-- C12: starting from a state in which the number of registrations agrees
with `irq_enabled`, every state seen while any sequence of
`GPIO_IOCTL_SET_MODE` requests is handled holds at most one registration, and
exactly one when `irq_enabled` is set; a request for `MODE_RECEIVER` on an
armed instance returns 0 and only sets the line to input, without calling
`request_irq`; and whenever the handler does call `request_irq`, the instance
was not armed. -/
theorem single_registration (s : IrqState) (reqs : List ModeRequest) (armed : crowd_device)
    (w : Bool) (r : Int) (hs : irq_coherent s) (harmed : armed.irq_enabled = true) :
    (∀ t ∈ set_mode_states s reqs, t.registered ≤ 1 ∧ irq_coherent t) ∧
      crowd_fops_ioctl (some armed) GPIO_IOCTL_SET_MODE (some MODE_RECEIVER) w r =
        { ret := 0, dev := some { armed with device_mode := MODE_RECEIVER },
          calls := [.gpiod_direction_input], out := none } ∧
      (∀ (dev : crowd_device) (arg : Option Int) (irq : Int),
        KernelCall.request_irq irq ∈
            (crowd_fops_ioctl (some dev) GPIO_IOCTL_SET_MODE arg w r).calls →
          dev.irq_enabled = false) := by
  refine ⟨?_, ?_, ?_⟩
  · intro t ht
    have hc := set_mode_states_coherent reqs s hs t ht
    refine ⟨?_, hc⟩
    unfold irq_coherent at hc
    rw [hc]
    split <;> omega
  · have hm : ¬ (MODE_RECEIVER ≠ MODE_TRANSMITTER ∧ MODE_RECEIVER ≠ MODE_RECEIVER) := by decide
    have hne : MODE_RECEIVER ≠ MODE_TRANSMITTER := by decide
    simp [crowd_fops_ioctl, hm, hne, harmed]
  · intro dev arg irq h
    exact request_irq_only_when_off dev arg w r irq h

/-- Witness for C12: a fresh instance that is asked for receiver mode three
times (registration failing once, then succeeding) and then for transmitter
mode never holds more than one registration, and a further receiver request on
the armed instance makes no `request_irq` call. -/
theorem single_registration_witness :
    (∀ t ∈ set_mode_states { dev := create_crowd_device 26 5, registered := 0 }
        [⟨some 2, -16⟩, ⟨some 2, 0⟩, ⟨some 2, 0⟩, ⟨some 1, 0⟩], t.registered ≤ 1) ∧
      (crowd_fops_ioctl (some armed_device) GPIO_IOCTL_SET_MODE (some MODE_RECEIVER)
        false 0).calls = [.gpiod_direction_input] := by
  have h := single_registration { dev := create_crowd_device 26 5, registered := 0 }
    [⟨some 2, -16⟩, ⟨some 2, 0⟩, ⟨some 2, 0⟩, ⟨some 1, 0⟩] armed_device false 0
    (by decide) (by decide)
  refine ⟨fun t ht => (h.1 t ht).1, ?_⟩
  rw [h.2.1]

end CrowdGpio
